import Mathlib

set_option maxRecDepth 10000

/-!
Verification of the `unrardll` native wrapper (`src/unrardll/wrapper.cpp`)
against its natural-language specification.

The wrapper is a Python C-extension bridging to the closed-source UNRAR
library.  We shallowly embed the host-side logic of `wrapper.cpp`:

* machine integers are modelled as `Nat`/`Int` with explicit `% 2^w`
  where C overflow or truncation matters;
* the external native library (`RAROpenArchiveEx`, `RARReadHeaderEx`,
  `RARProcessFile`, `RARCloseArchive`) is modelled parametrically: each
  wrapper operation takes the native call's observable result (status
  code, header contents, state mutations performed re-entrantly through
  the registered callback) as an explicit argument;
* the Python error channel (`PyErr_SetString`) is modelled by an explicit
  `PyErr` value returned by each operation;
* `write(2)` is modelled by a trace: a list of results for the successive
  `write` calls the loop issues; an exhausted trace means the loop has
  not returned within the trace (`none`).
-/

namespace Unrardll

/-! ## Native library constants (from the external `unrar/dll.hpp` ABI) -/

def ERAR_SUCCESS : Nat := 0
def ERAR_END_ARCHIVE : Nat := 10
def ERAR_NO_MEMORY : Nat := 11
def ERAR_BAD_DATA : Nat := 12
def ERAR_BAD_ARCHIVE : Nat := 13
def ERAR_UNKNOWN_FORMAT : Nat := 14
def ERAR_EOPEN : Nat := 15
def ERAR_ECREATE : Nat := 16
def ERAR_ECLOSE : Nat := 17
def ERAR_EREAD : Nat := 18
def ERAR_EWRITE : Nat := 19
def ERAR_SMALL_BUF : Nat := 20
def ERAR_UNKNOWN : Nat := 21
def ERAR_MISSING_PASSWORD : Nat := 22
def ERAR_EREFERENCE : Nat := 23
def ERAR_BAD_PASSWORD : Nat := 24

/-- Directory bit of the native header flags field (`unrar/dll.hpp`). -/
def RHDF_DIRECTORY : Nat := 0x20

/-- The fifteen status codes enumerated by the `CASE` lines of
`convert_rar_error`, plus `ERAR_NO_MEMORY` which has its own case. -/
def enumerated_codes : List Nat :=
  [ERAR_SUCCESS, ERAR_END_ARCHIVE, ERAR_BAD_DATA, ERAR_BAD_ARCHIVE,
   ERAR_UNKNOWN_FORMAT, ERAR_EOPEN, ERAR_ECREATE, ERAR_ECLOSE,
   ERAR_EREAD, ERAR_EWRITE, ERAR_SMALL_BUF, ERAR_UNKNOWN,
   ERAR_MISSING_PASSWORD, ERAR_EREFERENCE, ERAR_BAD_PASSWORD,
   ERAR_NO_MEMORY]

/-! ## The Python error channel -/

/-- A raised Python exception, as set by `PyErr_SetString`.  The wrapper
raises on three channels: the module's own `UNRARError`, `MemoryError`
(via the `NOMEM` macro, whose `__LINE__` suffix we elide as it carries no
information used by any caller), and `TypeError`. -/
inductive PyErr where
  | unrarError (msg : String)
  | memoryError (msg : String)
  | typeError (msg : String)
  deriving DecidableEq, Repr

/-- Embedding of `convert_rar_error` (wrapper.cpp lines 46-75): translate a native
status code into a raised Python error.  Each `CASE(x)` sets `UNRARError`
with the stringified code name; `ERAR_NO_MEMORY` raises `MemoryError`
via `NOMEM`; every other code falls to the default `"Unknown error"`. -/
def convert_rar_error (code : Nat) : PyErr :=
  if code = ERAR_SUCCESS then .unrarError ("ERAR_SUCCESS")
  else if code = ERAR_END_ARCHIVE then .unrarError ("ERAR_END_ARCHIVE")
  else if code = ERAR_BAD_DATA then .unrarError ("ERAR_BAD_DATA")
  else if code = ERAR_BAD_ARCHIVE then .unrarError ("ERAR_BAD_ARCHIVE")
  else if code = ERAR_UNKNOWN_FORMAT then .unrarError ("ERAR_UNKNOWN_FORMAT")
  else if code = ERAR_EOPEN then .unrarError ("ERAR_EOPEN")
  else if code = ERAR_ECREATE then .unrarError ("ERAR_ECREATE")
  else if code = ERAR_ECLOSE then .unrarError ("ERAR_ECLOSE")
  else if code = ERAR_EREAD then .unrarError ("ERAR_EREAD")
  else if code = ERAR_EWRITE then .unrarError ("ERAR_EWRITE")
  else if code = ERAR_SMALL_BUF then .unrarError ("ERAR_SMALL_BUF")
  else if code = ERAR_UNKNOWN then .unrarError ("ERAR_UNKNOWN")
  else if code = ERAR_MISSING_PASSWORD then .unrarError ("ERAR_MISSING_PASSWORD")
  else if code = ERAR_EREFERENCE then .unrarError ("ERAR_EREFERENCE")
  else if code = ERAR_BAD_PASSWORD then .unrarError ("ERAR_BAD_PASSWORD")
  else if code = ERAR_NO_MEMORY then .memoryError ("Out of memory")
  else .unrarError ("Unknown error")

/-! ## Value marshaling -/

/-- Embedding of `combine` (wrapper.cpp lines 303-307): widen the 32-bit `h` to the
64-bit `unsigned long` (LP64 target), shift left by 32 and or in `l`.
The arguments are C `unsigned int`s, hence the `% 2^32` on entry; the
result is an `unsigned long`, hence the `% 2^64`. -/
def combine (h l : Nat) : Nat :=
  (((h % 2 ^ 32) <<< 32) ||| (l % 2 ^ 32)) % 2 ^ 64

/-- Embedding of `wchar_to_unicode` (wrapper.cpp lines 88-95): returns `none` for a
NULL input pointer, otherwise the Python string built from the first
`sz` wide characters of the buffer (a buffer is modelled as `Nat → Char`;
allocation failure is not modelled). -/
def wchar_to_unicode (o : Option (Nat → Char)) (sz : Nat) : Option (List Char) :=
  match o with
  | none => none
  | some f => some ((List.range sz).map f)

/-! ## The descriptor write loop -/

/-- The observable result of one `write(2)` call: the `ssize_t` return
value and the `errno` the call leaves behind (the loop zeroes `errno`
before each call, so this is the whole `errno` state it sees). -/
structure WriteResult where
  written : Int
  err : Nat
  deriving DecidableEq, Repr

/-- The value of the C expression `written >= sz`: both operands are
64-bit, `written` is the signed `ssize_t` and `sz` the unsigned
`size_t`, so the usual arithmetic conversions reinterpret `written`
modulo `2^64` before the unsigned comparison. -/
def usize (i : Int) : Nat := (i % (2 ^ 64 : Int)).toNat

/-- Embedding of `write_all` (wrapper.cpp lines 124-145), faithful to the C:

* `while (sz > 0)`: a call with `sz = 0` returns `true` at once;
* `written = write(fd, data, sz)`: consumes the next trace element;
* `if (written >= sz) return true;` — the signed/unsigned comparison
  (`usize`);
* `if (written < 0) { if (err == EINTR || ...); continue; return false; }`
  — the stray semicolon makes the inner `if` a no-op, so this branch
  always `continue`s (and is in fact unreachable after the previous
  line whenever `sz < 2^63`);
* `if (written == 0 && err != 0) return false;`
* `sz -= written;` and loop.

`none` means the loop issued more `write` calls than the trace provides
(in particular, an infinite loop is `none` on every finite trace). -/
def write_all (trace : List WriteResult) (sz : Nat) : Option Bool :=
  match trace, sz with
  | _, 0 => some true
  | [], _ + 1 => none
  | r :: rest, sz =>
    if usize r.written ≥ sz then some true
    else if r.written < 0 then write_all rest sz
    else if r.written = 0 ∧ r.err ≠ 0 then some false
    else write_all rest (sz - r.written.toNat)

/-- Observer for `write_all`: the number of bytes the OS actually
reports written over the same loop (the sum of the non-negative `write`
return values the loop consumes before returning). -/
def write_all_bytes (trace : List WriteResult) (sz : Nat) : Nat :=
  match trace, sz with
  | _, 0 => 0
  | [], _ + 1 => 0
  | r :: rest, sz =>
    if usize r.written ≥ sz then r.written.toNat
    else if r.written < 0 then write_all_bytes rest sz
    else if r.written = 0 ∧ r.err ≠ 0 then 0
    else r.written.toNat + write_all_bytes rest (sz - r.written.toNat)

/-! ## The per-handle operation context -/

/-- The result of calling back into a Python method: either an
exception propagates (`PyErr_Occurred`) or a value is returned, of
which the bridge only observes truthiness. -/
inductive PyCallResult where
  | raises
  | returns (truthy : Bool)
  deriving DecidableEq, Repr

/-- The caller-supplied callback object, observed through the only
method the data branch calls: `_process_data` on the current chunk. -/
structure CallbackObj where
  process_data : PyCallResult
  deriving DecidableEq, Repr

/-- Embedding of `UnrarOperation` (wrapper.cpp lines 23-30): the per-handle context.
`thread_state` (the GIL bookkeeping slot) is concurrency bookkeeping
with no value-level content and is not modelled. -/
structure UnrarOperation where
  unrar_data : Option Nat
  callback_object : Option CallbackObj
  has_callback_error : Bool
  callback_error : String
  output_fd : Int
  deriving DecidableEq, Repr

/-- Constant `CALLBACK_ERROR_SZ` (wrapper.cpp line 22). -/
def CALLBACK_ERROR_SZ : Nat := 256

/-- Effect of `snprintf(uo->callback_error, CALLBACK_ERROR_SZ, ...)` followed by
`uo->has_callback_error = true`: record a pending callback error,
truncated to `CALLBACK_ERROR_SZ - 1` characters plus the terminator. -/
def set_callback_error (uo : UnrarOperation) (msg : String) : UnrarOperation :=
  { uo with has_callback_error := true,
            callback_error := msg.take (CALLBACK_ERROR_SZ - 1) }

/-- The `length` macro (wrapper.cpp line 155): `p2 & 0xffffffff`, the
low 32 bits of the two's-complement `LPARAM`. -/
def lparam_length (p2 : Int) : Nat := (p2 % (2 ^ 32 : Int)).toNat

/-- The `UCM_PROCESSDATA` arm of `unrar_callback` (wrapper.cpp lines
196-228).  Other message kinds (volume change, password request) touch
no state the claims mention and are not modelled.  Inputs: the context,
the native length argument `p2`, and — for the descriptor path — the
trace of `write(2)` results.  Output: the callback's integer return
(`0` continue, `-1` abort) and the updated context, or `none` when the
write loop does not return within its trace.

The exception message in the `PyErr_Occurred` branch really is the
password-handler text: the source reuses it verbatim in the data
branch.  The descriptor-failure message carries a `strerror(errno)`
suffix in the source, elided here (no claim inspects it). -/
def ucm_processdata (uo : UnrarOperation) (p2 : Int)
    (writes : List WriteResult) : Option (Int × UnrarOperation) :=
  if p2 < 0 then
    some (-1, set_callback_error uo
      ("Invalid buffer length sent to callback: " ++ toString p2))
  else
    match uo.callback_object with
    | some cb =>
      if uo.output_fd > -1 then
        match write_all writes (lparam_length p2) with
        | none => none
        | some true => some (0, uo)
        | some false => some (-1, set_callback_error uo
            ("Failed to write all bytes to output file. Error: "))
      else
        match cb.process_data with
        | .raises => some (-1, set_callback_error uo
            ("An exception occurred in the password callback handler"))
        | .returns true => some (0, uo)
        | .returns false => some (-1, set_callback_error uo
            ("Processing canceled by the callback"))
    | none => some (-1, set_callback_error uo ("No callback provided"))

/-! ## The capsule and handle lifecycle -/

/-- A Python capsule wrapping the per-handle context.  `valid` models
"the capsule's name is still `NAME` (\"RARFileHandle\")": creation sets
it, teardown clears it via `PyCapsule_SetName(capsule, NULL)`.  `uo`
models the stored context pointer; `none` stands for a freed or absent
context (after `free(uo)` the dangling pointer is unreachable because
the name is already invalidated). -/
structure Capsule where
  valid : Bool
  uo : Option UnrarOperation
  deriving DecidableEq, Repr

/-- Embedding of `PyCapsule_IsValid(capsule, NAME)`: the capsule's name matches and
its pointer is non-NULL. -/
def capsule_is_valid (c : Capsule) : Bool :=
  c.valid && c.uo.isSome

/-- What one teardown pass released: whether `RARCloseArchive` ran,
whether `Py_XDECREF` dropped a non-NULL callback reference, and whether
`free(uo)` ran. -/
structure TeardownEffects where
  closed_native : Bool
  released_callback : Bool
  freed_context : Bool
  deriving DecidableEq, Repr

/-- No release actions. -/
def TeardownEffects.none : TeardownEffects :=
  ⟨false, false, false⟩

/-- Embedding of `close_encapsulated_file` (wrapper.cpp lines 99-108): if the capsule
is still valid, close the native handle when live, drop the callback
reference, free the context and invalidate the capsule's name so the
teardown cannot run twice; otherwise do nothing. -/
def close_encapsulated_file (c : Capsule) : Capsule × TeardownEffects :=
  if capsule_is_valid c then
    match c.uo with
    | some uo =>
      (⟨false, Option.none⟩,
       ⟨uo.unrar_data.isSome, uo.callback_object.isSome, true⟩)
    | none => (c, TeardownEffects.none)
  else (c, TeardownEffects.none)

/-- Embedding of `close_archive` (wrapper.cpp lines 285-289): run the teardown and
return `Py_None` — it never raises. -/
def close_archive (c : Capsule) : Option PyErr × Capsule × TeardownEffects :=
  (none, close_encapsulated_file c)

/-- Embedding of `from_capsule` (wrapper.cpp lines 291-299): `PyCapsule_GetPointer`
yields the context only while the capsule's name is `NAME`; otherwise
the wrapper raises `TypeError` (modelled by `none` here; the callers
below attach the message). -/
def from_capsule (c : Capsule) : Option UnrarOperation :=
  if c.valid then c.uo else none

/-- The `TypeError` raised when `from_capsule` fails. -/
def invalid_capsule_error : PyErr :=
  .typeError ("Not a valid RARFileHandle capsule")

/-! ## Header decoding -/

/-- Embedding of `RARHeaderDataEx` as the wrapper reads it (the external structure
filled in by `RARReadHeaderEx`): `FileNameW` is modelled as the list of
wide characters up to the terminator (`wcslen`); `RedirName` is a
possibly-NULL pointer to a wide buffer, modelled as `Option (Nat → Char)`;
all integer fields are the native unsigned values. -/
structure RARHeaderDataEx where
  fileNameW : List Char
  flags : Nat
  packSize : Nat
  packSizeHigh : Nat
  unpSize : Nat
  unpSizeHigh : Nat
  hostOS : Nat
  fileCRC : Nat
  fileTime : Nat
  unpVer : Nat
  method : Nat
  fileAttr : Nat
  redirType : Nat
  redirName : Option (Nat → Char)
  redirNameSize : Nat

/-- The Python dictionary `header_to_python` builds, one field per
`AVAL` line.  `Py_BuildValue` format truncations are applied where the
C varargs conversion truncates: `"H"` (unsigned short) for `flags`,
`"b"` (char) for `host_os`, `unpack_ver` and `method`, `"I"` (unsigned
int) for the 32-bit fields, `"k"` (unsigned long) for the combined
sizes. -/
structure EntryHeader where
  filename : List Char
  flags : Nat
  pack_size : Nat
  unpack_size : Nat
  host_os : Nat
  file_crc : Nat
  file_time : Nat
  unpack_ver : Nat
  method : Nat
  file_attr : Nat
  is_dir : Bool
  redir_type : Nat
  redir_name : Option (List Char)
  deriving DecidableEq, Repr

/-- Embedding of `header_to_python` (wrapper.cpp lines 309-341): decode the native
header into the Python record.  `is_dir` tests the directory bit of the
raw flags; `redir_name` is decoded (and present) only when
`RedirNameSize > 0`, from `RedirNameSize` wide characters of
`RedirName`.  `none` is the error exit (NULL `RedirName` with positive
size; allocation failures are not modelled). -/
def header_to_python (fh : RARHeaderDataEx) : Option EntryHeader :=
  let base : Option (List Char) → EntryHeader := fun rn =>
    { filename := fh.fileNameW
      flags := fh.flags % 2 ^ 16
      pack_size := combine fh.packSizeHigh fh.packSize
      unpack_size := combine fh.unpSizeHigh fh.unpSize
      host_os := fh.hostOS % 2 ^ 8
      file_crc := fh.fileCRC % 2 ^ 32
      file_time := fh.fileTime % 2 ^ 32
      unpack_ver := fh.unpVer % 2 ^ 8
      method := fh.method % 2 ^ 8
      file_attr := fh.fileAttr % 2 ^ 32
      is_dir := fh.flags &&& RHDF_DIRECTORY ≠ 0
      redir_type := fh.redirType % 2 ^ 32
      redir_name := rn }
  if fh.redirNameSize > 0 then
    match wchar_to_unicode fh.redirName fh.redirNameSize with
    | none => none
    | some rn => some (base (some rn))
  else some (base none)

/-! ## The two cursor operations -/

/-- Embedding of `read_next_header` (wrapper.cpp lines 344-365).  The native call
`RARReadHeaderEx` is modelled by its observable result: the status code
and the header structure it filled.  `Except.ok none` is `Py_None`
("no more entries"); decode failure surfaces the wrapper's
memory-error path. -/
def read_next_header (c : Capsule) (native : Nat × RARHeaderDataEx) :
    Except PyErr (Option EntryHeader) :=
  match from_capsule c with
  | none => .error invalid_capsule_error
  | some _ =>
    let (retval, header) := native
    if retval = ERAR_END_ARCHIVE then .ok none
    else if retval = ERAR_SUCCESS then
      match header_to_python header with
      | some h => .ok (some h)
      | none => .error (.memoryError ("Out of memory"))
    else .error (convert_rar_error retval)

/-- Embedding of `process_file` (wrapper.cpp lines 368-385).  The native call
`RARProcessFile` is modelled parametrically by `native`: it receives
the context as the callback bridge sees it (with `output_fd` already
stored) and yields the status code together with the context as the
re-entrant callback left it.  On `ERAR_SUCCESS` the wrapper returns
`Py_None`; on `ERAR_UNKNOWN` with a pending callback error it raises
`UNRARError` with the captured message; otherwise it raises the
translated status. -/
def process_file (c : Capsule) (operation : Nat) (output_fd : Int)
    (native : UnrarOperation → Nat × UnrarOperation) :
    Option PyErr × Capsule :=
  match from_capsule c with
  | none => (some invalid_capsule_error, c)
  | some uo =>
    let uo1 := { uo with output_fd := output_fd }
    let (retval, uo2) := native uo1
    let _ := operation
    if retval = ERAR_SUCCESS then (none, { c with uo := some uo2 })
    else if retval = ERAR_UNKNOWN ∧ uo2.has_callback_error then
      (some (.unrarError uo2.callback_error), { c with uo := some uo2 })
    else (some (convert_rar_error retval), { c with uo := some uo2 })

/-! ## Concrete fixtures and modelling derivatives -/

/-- A native-call behavior that, like the real library driving the
callback bridge, only ever touches the pending-error fields of the
context. -/
def preserves_frame (native : UnrarOperation → Nat × UnrarOperation) : Prop :=
  ∀ u, (native u).2.unrar_data = u.unrar_data ∧
       (native u).2.callback_object = u.callback_object ∧
       (native u).2.output_fd = u.output_fd

/-- A live context with no callback error pending. -/
def uo_plain : UnrarOperation :=
  ⟨some 7, some ⟨.returns true⟩, false, "", -1⟩

/-- A live context with a pending callback error message `"boom"`. -/
def uo_pending : UnrarOperation :=
  ⟨some 7, some ⟨.returns true⟩, true, "boom", -1⟩

/-- A live capsule around `uo_plain`. -/
def cap_plain : Capsule := ⟨true, some uo_plain⟩

/-- A live capsule around `uo_pending`. -/
def cap_pending : Capsule := ⟨true, some uo_pending⟩

/-- A native call that reports `ERAR_SUCCESS` and leaves the context
untouched. -/
def native_ok : UnrarOperation → Nat × UnrarOperation :=
  fun u => (ERAR_SUCCESS, u)

/-- A native call that reports `ERAR_UNKNOWN` and leaves the context
untouched. -/
def native_unknown : UnrarOperation → Nat × UnrarOperation :=
  fun u => (ERAR_UNKNOWN, u)

/-- A header for a directory entry with no redirection name. -/
def fh_plain : RARHeaderDataEx :=
  ⟨['a'], 0x20, 0, 0, 0, 0, 0, 0, 0, 0, 0, 0, 0, none, 0⟩

/-- The decoded form of `fh_plain`. -/
def eh_plain : EntryHeader :=
  ⟨['a'], 0x20, 0, 0, 0, 0, 0, 0, 0, 0, true, 0, none⟩

/-- A header for a link entry: redirection type 5, a two-character
redirection name buffer of `'x'`s. -/
def fh_redir : RARHeaderDataEx :=
  ⟨['b'], 0, 0, 0, 0, 0, 0, 0, 0, 0, 0, 0, 5, some (fun _ => 'x'), 2⟩

/-- The decoded form of `fh_redir`. -/
def eh_redir : EntryHeader :=
  ⟨['b'], 0, 0, 0, 0, 0, 0, 0, 0, 0, false, 5, some ['x', 'x']⟩

/-- A live context whose data consumer cancels (returns a falsy
value). -/
def uo_cancel : UnrarOperation :=
  ⟨some 7, some ⟨.returns false⟩, false, "", -1⟩

/-- A live context whose data consumer raises. -/
def uo_raises : UnrarOperation :=
  ⟨some 7, some ⟨.raises⟩, false, "", -1⟩

/-- A native call that delivers one data chunk of native length `p2`
through the callback bridge and then — as the library does when the
callback aborts — reports `ERAR_UNKNOWN`. -/
def native_via_bridge (p2 : Int) (writes : List WriteResult) :
    UnrarOperation → Nat × UnrarOperation :=
  fun u =>
    match ucm_processdata u p2 writes with
    | some (_, u2) => (ERAR_UNKNOWN, u2)
    | none => (ERAR_UNKNOWN, u)

end Unrardll

namespace Unrardll

/-! ## Helper lemmas -/

/-- A capsule whose name has been invalidated (or that never was a
`RARFileHandle` capsule) yields no context. -/
theorem from_capsule_eq_none_of_invalid (c : Capsule)
    (h : capsule_is_valid c = false) : from_capsule c = none := by
  unfold capsule_is_valid at h
  unfold from_capsule
  rcases c with ⟨v, uo⟩
  cases v with
  | false => simp
  | true => cases uo <;> simp_all

/-- Teardown always leaves the capsule invalid. -/
theorem close_invalidates (c : Capsule) :
    capsule_is_valid (close_encapsulated_file c).1 = false := by
  unfold close_encapsulated_file
  rcases c with ⟨v, uo⟩
  cases v <;> cases uo <;> simp [capsule_is_valid]

/-- The data branch of the callback bridge touches only the two
pending-error fields of the context. -/
theorem ucm_processdata_frame (uo : UnrarOperation) (p2 : Int)
    (writes : List WriteResult) (r : Int × UnrarOperation)
    (h : ucm_processdata uo p2 writes = some r) :
    r.2.unrar_data = uo.unrar_data ∧
    r.2.callback_object = uo.callback_object ∧
    r.2.output_fd = uo.output_fd := by
  unfold ucm_processdata at h
  split at h
  · cases h; simp [set_callback_error]
  · split at h
    · split at h
      · split at h
        · cases h
        · cases h; simp
        · cases h; simp [set_callback_error]
      · split at h <;> cases h <;> simp [set_callback_error]
    · cases h; simp [set_callback_error]

/-! ## Claim C4: split-integer recombination -/

/-- Claim C4: for all 32-bit unsigned inputs `h` and `l`, `combine`
returns the 64-bit value `(h <<< 32) ||| l`; in particular
`combine 1 0 = 2^32` and `combine 0 0xFFFFFFFF = 0xFFFFFFFF`. -/
theorem combine_spec :
    (∀ h l : Nat, h < 2 ^ 32 → l < 2 ^ 32 →
      combine h l = (h <<< 32) ||| l ∧ combine h l < 2 ^ 64) ∧
    combine 1 0 = 2 ^ 32 ∧ combine 0 0xFFFFFFFF = 0xFFFFFFFF := by
  refine ⟨?_, by decide, by decide⟩
  intro h l hh hl
  have hmodh : h % 2 ^ 32 = h := Nat.mod_eq_of_lt hh
  have hmodl : l % 2 ^ 32 = l := Nat.mod_eq_of_lt hl
  have hbound : (h <<< 32) ||| l < 2 ^ 64 := by
    have := Nat.append_lt hl hh
    simpa using this
  constructor
  · simp only [combine, hmodh, hmodl]
    exact Nat.mod_eq_of_lt hbound
  · simp only [combine, hmodh, hmodl]
    exact Nat.mod_lt _ (by positivity)

/-- Witness for `combine_spec`: instantiate at `h = 1`, `l = 0`. -/
theorem combine_spec_witness :
    combine 1 0 = (1 <<< 32) ||| 0 ∧ combine 1 0 < 2 ^ 64 :=
  combine_spec.1 1 0 (by decide) (by decide)

/-! ## Claim C7: totality of the error translator -/

/-- Claim C7: the error translator is total over 32-bit codes: every
enumerated code maps to the `UNRARError` named after it, the
out-of-memory code maps to a distinct `MemoryError` (not `UNRARError`),
and every unrecognized code maps to `UNRARError "Unknown error"`. -/
theorem convert_rar_error_total :
    convert_rar_error ERAR_SUCCESS = .unrarError ("ERAR_SUCCESS") ∧
    convert_rar_error ERAR_END_ARCHIVE = .unrarError ("ERAR_END_ARCHIVE") ∧
    convert_rar_error ERAR_BAD_DATA = .unrarError ("ERAR_BAD_DATA") ∧
    convert_rar_error ERAR_BAD_ARCHIVE = .unrarError ("ERAR_BAD_ARCHIVE") ∧
    convert_rar_error ERAR_UNKNOWN_FORMAT = .unrarError ("ERAR_UNKNOWN_FORMAT") ∧
    convert_rar_error ERAR_EOPEN = .unrarError ("ERAR_EOPEN") ∧
    convert_rar_error ERAR_ECREATE = .unrarError ("ERAR_ECREATE") ∧
    convert_rar_error ERAR_ECLOSE = .unrarError ("ERAR_ECLOSE") ∧
    convert_rar_error ERAR_EREAD = .unrarError ("ERAR_EREAD") ∧
    convert_rar_error ERAR_EWRITE = .unrarError ("ERAR_EWRITE") ∧
    convert_rar_error ERAR_SMALL_BUF = .unrarError ("ERAR_SMALL_BUF") ∧
    convert_rar_error ERAR_UNKNOWN = .unrarError ("ERAR_UNKNOWN") ∧
    convert_rar_error ERAR_MISSING_PASSWORD = .unrarError ("ERAR_MISSING_PASSWORD") ∧
    convert_rar_error ERAR_EREFERENCE = .unrarError ("ERAR_EREFERENCE") ∧
    convert_rar_error ERAR_BAD_PASSWORD = .unrarError ("ERAR_BAD_PASSWORD") ∧
    (∃ m, convert_rar_error ERAR_NO_MEMORY = .memoryError m) ∧
    (∀ m, convert_rar_error ERAR_NO_MEMORY ≠ .unrarError m) ∧
    (∀ code : Nat, code < 2 ^ 32 → code ∉ enumerated_codes →
      convert_rar_error code = .unrarError ("Unknown error")) := by
  refine ⟨by decide, by decide, by decide, by decide, by decide, by decide,
    by decide, by decide, by decide, by decide, by decide, by decide,
    by decide, by decide, by decide, ⟨"Out of memory", by decide⟩,
    ?_, ?_⟩
  · intro m hm
    have hmem : convert_rar_error ERAR_NO_MEMORY = .memoryError ("Out of memory") := by
      decide
    rw [hmem] at hm
    exact PyErr.noConfusion hm
  intro code _ hmem
  simp only [enumerated_codes, List.mem_cons, List.not_mem_nil, or_false,
    not_or] at hmem
  obtain ⟨h0, h10, h12, h13, h14, h15, h16, h17, h18, h19, h20, h21, h22,
    h23, h24, h11⟩ := hmem
  simp only [convert_rar_error, ERAR_SUCCESS, ERAR_END_ARCHIVE,
    ERAR_BAD_DATA, ERAR_BAD_ARCHIVE, ERAR_UNKNOWN_FORMAT, ERAR_EOPEN,
    ERAR_ECREATE, ERAR_ECLOSE, ERAR_EREAD, ERAR_EWRITE, ERAR_SMALL_BUF,
    ERAR_UNKNOWN, ERAR_MISSING_PASSWORD, ERAR_EREFERENCE,
    ERAR_BAD_PASSWORD, ERAR_NO_MEMORY] at *
  simp [h0, h10, h11, h12, h13, h14, h15, h16, h17, h18, h19, h20, h21,
    h22, h23, h24]

/-- Witness for `convert_rar_error_total`: the catch-all branch at the
concrete unrecognized code 9999. -/
theorem convert_rar_error_total_witness :
    convert_rar_error 9999 = .unrarError ("Unknown error") :=
  convert_rar_error_total.2.2.2.2.2.2.2.2.2.2.2.2.2.2.2.2.2
    9999 (by decide) (by decide)

/-! ## Claim C1: surfacing the pending callback error in `process_file` -/

/-- Claim C1 (amended): when the native "process current entry"
operation returns `ERAR_UNKNOWN` while the pending callback error flag
is set, `process_file` raises `UNRARError` with the captured message
(not the generic translation of the status) — but it does not clear the
pending flag: the context is stored back exactly as the native call
left it. -/
theorem process_file_surfaces_pending_error (c : Capsule)
    (uo : UnrarOperation) (op : Nat) (fd : Int)
    (native : UnrarOperation → Nat × UnrarOperation)
    (hc : from_capsule c = some uo)
    (hret : (native { uo with output_fd := fd }).1 = ERAR_UNKNOWN)
    (herr : (native { uo with output_fd := fd }).2.has_callback_error = true) :
    (process_file c op fd native).1 =
      some (.unrarError (native { uo with output_fd := fd }).2.callback_error) ∧
    (process_file c op fd native).2.uo =
      some (native { uo with output_fd := fd }).2 := by
  rcases hnat : native { uo with output_fd := fd } with ⟨retval, uo2⟩
  rw [hnat] at hret herr
  have hret' : retval = ERAR_UNKNOWN := hret
  have herr' : uo2.has_callback_error = true := herr
  subst hret'
  simp only [process_file, hc, hnat]
  simp [ERAR_SUCCESS, ERAR_UNKNOWN, herr']

/-- Witness for `process_file_surfaces_pending_error`: a live capsule
whose context carries the pending message `"boom"` and a native call
reporting `ERAR_UNKNOWN`. -/
theorem process_file_surfaces_pending_error_witness :
    (process_file cap_pending 1 (-1) native_unknown).1 =
      some (.unrarError (native_unknown { uo_pending with output_fd := -1 }).2.callback_error) ∧
    (process_file cap_pending 1 (-1) native_unknown).2.uo =
      some (native_unknown { uo_pending with output_fd := -1 }).2 :=
  process_file_surfaces_pending_error cap_pending uo_pending 1 (-1)
    native_unknown (by decide) (by decide) (by decide)

/-- Counterexample to claim C1 as stated: at this concrete input the
captured message `"boom"` is raised, yet after the call the pending
flag on the stored context is still set — `process_file` never clears
it, so the claim's "clears the pending flag" is false. -/
theorem process_file_pending_flag_not_cleared_cex :
    (process_file cap_pending 1 (-1) native_unknown).1 =
      some (.unrarError ("boom")) ∧
    ((process_file cap_pending 1 (-1) native_unknown).2.uo.map
      (fun u => u.has_callback_error)) = some true := by
  decide

/-! ## Claim C3: idempotent teardown -/

/-- Claim C3: the first teardown of a live handle closes the native
handle, drops the retained callback reference and frees the context,
leaving the capsule invalidated; teardown composed with itself equals a
single teardown, the second pass releasing nothing; and `close_archive`
never raises. -/
theorem close_archive_idempotent :
    (∀ c uo, c.uo = some uo → c.valid = true →
      uo.unrar_data.isSome = true → uo.callback_object.isSome = true →
      (close_encapsulated_file c).2 = ⟨true, true, true⟩ ∧
      (close_encapsulated_file c).1 = ⟨false, none⟩) ∧
    (∀ c, close_encapsulated_file (close_encapsulated_file c).1 =
      ((close_encapsulated_file c).1, TeardownEffects.none)) ∧
    (∀ c, (close_archive c).1 = none) := by
  refine ⟨?_, ?_, ?_⟩
  · intro c uo hc hv hd hcb
    unfold close_encapsulated_file capsule_is_valid
    rw [hc, hv]
    simp [hd, hcb]
  · intro c
    rcases c with ⟨v, uo⟩
    cases v <;> cases uo <;>
      simp [close_encapsulated_file, capsule_is_valid]
  · intro c
    rfl

/-- Witness for `close_archive_idempotent`: the live capsule
`cap_plain`; its first teardown releases all three resources and a
second teardown is a state-preserving no-op. -/
theorem close_archive_idempotent_witness :
    ((close_encapsulated_file cap_plain).2 = ⟨true, true, true⟩ ∧
      (close_encapsulated_file cap_plain).1 = ⟨false, none⟩) ∧
    close_encapsulated_file (close_encapsulated_file cap_plain).1 =
      ((close_encapsulated_file cap_plain).1, TeardownEffects.none) ∧
    (close_archive cap_plain).1 = none :=
  ⟨close_archive_idempotent.1 cap_plain uo_plain (by decide) (by decide)
      (by decide) (by decide),
   close_archive_idempotent.2.1 cap_plain,
   close_archive_idempotent.2.2 cap_plain⟩

/-! ## Claim C9: the frame of `process_file` -/

/-- Claim C9 (amended): `process_file` stores the passed descriptor in
the context's `output_fd` field, and — provided the native call, like
the real callback bridge, touches only the pending-error fields —
every field other than `output_fd` and the pending-error pair is
unchanged.  Contrary to the original claim, the descriptor is *not*
reset when the call returns: the stored context still holds it (it is
only overwritten by the next `process_file` call). -/
theorem process_file_frame (c : Capsule) (uo : UnrarOperation)
    (op : Nat) (fd : Int)
    (native : UnrarOperation → Nat × UnrarOperation)
    (hc : from_capsule c = some uo)
    (hf : preserves_frame native) :
    ∃ uo2, (process_file c op fd native).2.uo = some uo2 ∧
      uo2.unrar_data = uo.unrar_data ∧
      uo2.callback_object = uo.callback_object ∧
      uo2.output_fd = fd ∧
      (process_file c op fd native).2.valid = c.valid := by
  rcases hnat : native { uo with output_fd := fd } with ⟨retval, uo2⟩
  obtain ⟨hd, hcb, hfd⟩ := hf { uo with output_fd := fd }
  rw [hnat] at hd hcb hfd
  have hd' : uo2.unrar_data = uo.unrar_data := hd
  have hcb' : uo2.callback_object = uo.callback_object := hcb
  have hfd' : uo2.output_fd = fd := hfd
  have hres : (process_file c op fd native).2 = { c with uo := some uo2 } := by
    simp only [process_file, hc, hnat]
    split
    · rfl
    · split <;> rfl
  exact ⟨uo2, by rw [hres], hd', hcb', hfd', by rw [hres]⟩

/-- Witness for `process_file_frame`: a successful native call on the
live capsule `cap_plain` with descriptor 5. -/
theorem process_file_frame_witness :
    ∃ uo2, (process_file cap_plain 2 5 native_ok).2.uo = some uo2 ∧
      uo2.unrar_data = uo_plain.unrar_data ∧
      uo2.callback_object = uo_plain.callback_object ∧
      uo2.output_fd = 5 ∧
      (process_file cap_plain 2 5 native_ok).2.valid = cap_plain.valid :=
  process_file_frame cap_plain uo_plain 2 5 native_ok (by decide)
    (fun _ => ⟨rfl, rfl, rfl⟩)

/-- Counterexample to claim C9 as stated: after this `process_file`
call with descriptor 5 returns, the context's `output_fd` field still
holds 5 — the claim's "after the call returns the handle's
output-descriptor field no longer holds the descriptor passed to that
call" is false. -/
theorem process_file_output_fd_persists_cex :
    ((process_file cap_plain 2 5 native_ok).2.uo.map
      (fun u => u.output_fd)) = some 5 := by
  decide

/-! ## Claim C10: operations on dead capsules -/

/-- Claim C10: a capsule that is not a live handle — in particular any
capsule already torn down, since teardown invalidates the capsule's
name — is rejected by both `read_next_header` and `process_file` with
the `TypeError` `"Not a valid RARFileHandle capsule"`, and no released
state is touched. -/
theorem dead_capsule_rejected :
    (∀ (c : Capsule) (nh : Nat × RARHeaderDataEx) (op : Nat) (fd : Int)
      (native : UnrarOperation → Nat × UnrarOperation),
      capsule_is_valid c = false →
      read_next_header c nh = .error invalid_capsule_error ∧
      (process_file c op fd native).1 = some invalid_capsule_error) ∧
    (∀ (c : Capsule) (nh : Nat × RARHeaderDataEx) (op : Nat) (fd : Int)
      (native : UnrarOperation → Nat × UnrarOperation),
      capsule_is_valid (close_encapsulated_file c).1 = false ∧
      read_next_header (close_encapsulated_file c).1 nh =
        .error invalid_capsule_error ∧
      (process_file (close_encapsulated_file c).1 op fd native).1 =
        some invalid_capsule_error) := by
  have core : ∀ (c : Capsule) (nh : Nat × RARHeaderDataEx) (op : Nat)
      (fd : Int) (native : UnrarOperation → Nat × UnrarOperation),
      capsule_is_valid c = false →
      read_next_header c nh = .error invalid_capsule_error ∧
      (process_file c op fd native).1 = some invalid_capsule_error := by
    intro c nh op fd native h
    have hn := from_capsule_eq_none_of_invalid c h
    constructor
    · unfold read_next_header
      rw [hn]
    · unfold process_file
      rw [hn]
  refine ⟨core, ?_⟩
  intro c nh op fd native
  have hinv := close_invalidates c
  exact ⟨hinv, (core _ nh op fd native hinv).1, (core _ nh op fd native hinv).2⟩

/-- Witness for `dead_capsule_rejected`: a capsule with an invalidated
name is rejected by both operations. -/
theorem dead_capsule_rejected_witness :
    read_next_header ⟨false, none⟩ (ERAR_SUCCESS, fh_plain) =
      .error invalid_capsule_error ∧
    (process_file ⟨false, none⟩ 1 (-1) native_ok).1 =
      some invalid_capsule_error :=
  dead_capsule_rejected.1 ⟨false, none⟩ (ERAR_SUCCESS, fh_plain) 1 (-1)
    native_ok (by decide)

/-! ## Claim C2: the descriptor write loop -/

/-- Claim C2 (code bug): evaluating `write_all` at failing inputs.
With `sz = 10`:

* a first `write` that fails outright (`-1`, `errno = EIO = 5`) makes
  `write_all` return success at once with 0 bytes written — the signed
  `-1` is reinterpreted as `SIZE_MAX` by the unsigned comparison
  `written >= sz`;
* an interrupted write (`-1`, `errno = EINTR = 4`) is likewise
  reported as success instead of being retried — the retry branch is
  unreachable;
* a short write of 4 bytes followed by a failing write is reported as
  success with only 4 of 10 bytes written.

The claim (and spec §4.3 / §7) requires failure to be reported in each
of these cases. -/
theorem write_all_success_on_failed_write :
    write_all [⟨-1, 5⟩] 10 = some true ∧
    write_all_bytes [⟨-1, 5⟩] 10 = 0 ∧
    write_all [⟨-1, 4⟩] 10 = some true ∧
    write_all_bytes [⟨-1, 4⟩] 10 = 0 ∧
    write_all [⟨4, 0⟩, ⟨-1, 5⟩] 10 = some true ∧
    write_all_bytes [⟨4, 0⟩, ⟨-1, 5⟩] 10 = 4 := by
  decide

/-! ## Claim C5: the data-consumer callback path -/

/-- Claim C5 (amended): with no output descriptor set and a registered
consumer, a falsy consumer return records the pending error
`"Processing canceled by the callback"` and aborts, and `process_file`
then surfaces exactly that message; a *raising* consumer also aborts
but records `"An exception occurred in the password callback handler"`
(the source reuses the password-branch text), not the cancellation
message; a truthy return succeeds with no state change. -/
theorem ucm_processdata_consumer (uo : UnrarOperation) (cb : CallbackObj)
    (p2 : Int) (writes : List WriteResult) (op : Nat)
    (hcb : uo.callback_object = some cb)
    (hfd : uo.output_fd ≤ -1)
    (hp2 : 0 ≤ p2) :
    (cb.process_data = .returns false →
      ucm_processdata uo p2 writes =
        some (-1, set_callback_error uo
          ("Processing canceled by the callback"))) ∧
    (cb.process_data = .raises →
      ucm_processdata uo p2 writes =
        some (-1, set_callback_error uo
          ("An exception occurred in the password callback handler"))) ∧
    (cb.process_data = .returns true →
      ucm_processdata uo p2 writes = some (0, uo)) ∧
    (cb.process_data = .returns false →
      (process_file ⟨true, some uo⟩ op (-1)
        (native_via_bridge p2 writes)).1 =
        some (.unrarError ("Processing canceled by the callback"))) := by
  have hnlt : ¬ p2 < 0 := by omega
  have hnfd : ¬ uo.output_fd > -1 := by omega
  refine ⟨?_, ?_, ?_, ?_⟩
  · intro hpd
    simp [ucm_processdata, hnlt, hcb, hnfd, hpd]
  · intro hpd
    simp [ucm_processdata, hnlt, hcb, hnfd, hpd]
  · intro hpd
    simp [ucm_processdata, hnlt, hcb, hnfd, hpd]
  · intro hpd
    have hbridge : ucm_processdata { uo with output_fd := -1 } p2 writes =
        some (-1, set_callback_error { uo with output_fd := -1 }
          ("Processing canceled by the callback")) := by
      simp [ucm_processdata, hnlt, hcb, hpd]
    simp [process_file, from_capsule, native_via_bridge, hbridge,
      set_callback_error, ERAR_UNKNOWN, ERAR_SUCCESS, CALLBACK_ERROR_SZ]
    decide

/-- Witness for `ucm_processdata_consumer`: the cancelling consumer
`uo_cancel` on a 4-byte chunk. -/
theorem ucm_processdata_consumer_witness :
    ucm_processdata uo_cancel 4 [] =
      some (-1, set_callback_error uo_cancel
        ("Processing canceled by the callback")) ∧
    (process_file ⟨true, some uo_cancel⟩ 2 (-1) (native_via_bridge 4 [])).1 =
      some (.unrarError ("Processing canceled by the callback")) :=
  ⟨(ucm_processdata_consumer uo_cancel ⟨.returns false⟩ 4 [] 2 (by decide)
      (by decide) (by decide)).1 rfl,
   (ucm_processdata_consumer uo_cancel ⟨.returns false⟩ 4 [] 2 (by decide)
      (by decide) (by decide)).2.2.2 rfl⟩

/-- Counterexample to claim C5 as stated: at this concrete input the
consumer raises; the bridge aborts and records a pending error, but
the recorded message is the password-branch text, not the claimed
`"Processing canceled by the callback"`. -/
theorem ucm_processdata_raise_message_cex :
    ((ucm_processdata uo_raises 4 []).map
      (fun r => (r.1, r.2.has_callback_error, r.2.callback_error))) =
      some (-1, true,
        "An exception occurred in the password callback handler") ∧
    ((ucm_processdata uo_raises 4 []).map (fun r => r.2.callback_error)) ≠
      some ("Processing canceled by the callback") := by
  decide

/-! ## Claim C6: `read_next_header` status dispatch -/

/-- Claim C6: on a valid capsule, an `ERAR_END_ARCHIVE` status yields
"no more entries" (`Py_None`) with no error raised; an `ERAR_SUCCESS`
status yields the decoded header record; every other status raises the
translated native error and yields no header. -/
theorem read_next_header_status (c : Capsule) (uo : UnrarOperation)
    (retval : Nat) (fh : RARHeaderDataEx) (h : EntryHeader)
    (hc : from_capsule c = some uo)
    (hdec : header_to_python fh = some h) :
    (retval = ERAR_END_ARCHIVE →
      read_next_header c (retval, fh) = .ok none) ∧
    (retval = ERAR_SUCCESS →
      read_next_header c (retval, fh) = .ok (some h)) ∧
    (retval ≠ ERAR_END_ARCHIVE → retval ≠ ERAR_SUCCESS →
      read_next_header c (retval, fh) = .error (convert_rar_error retval)) := by
  refine ⟨?_, ?_, ?_⟩
  · intro hret
    subst hret
    simp [read_next_header, hc]
  · intro hret
    subst hret
    simp [read_next_header, hc, hdec, ERAR_SUCCESS, ERAR_END_ARCHIVE]
  · intro h1 h2
    simp [read_next_header, hc, h1, h2]

/-- Witness for `read_next_header_status`: end-of-archive on the live
capsule `cap_plain`. -/
theorem read_next_header_status_witness :
    read_next_header cap_plain (ERAR_END_ARCHIVE, fh_plain) = .ok none :=
  (read_next_header_status cap_plain uo_plain ERAR_END_ARCHIVE fh_plain
    eh_plain (by decide) (by decide)).1 rfl

/-! ## Claim C8: derived header fields -/

/-- Claim C8: in every successfully decoded header, `is_dir` holds
exactly when the directory bit of the native flags is set, and
`redir_name` is present exactly when the native redirection-size field
is positive, in which case it is the decoded wide text of that
length. -/
theorem header_to_python_dir_redir (fh : RARHeaderDataEx) (h : EntryHeader)
    (hdec : header_to_python fh = some h) :
    ((h.is_dir = true) ↔ fh.flags &&& RHDF_DIRECTORY ≠ 0) ∧
    (0 < fh.redirNameSize →
      ∃ s, h.redir_name = some s ∧ s.length = fh.redirNameSize) ∧
    (fh.redirNameSize = 0 → h.redir_name = none) := by
  unfold header_to_python at hdec
  by_cases hr : fh.redirNameSize > 0
  · rw [if_pos hr] at hdec
    cases hrn : fh.redirName with
    | none =>
      rw [hrn] at hdec
      simp [wchar_to_unicode] at hdec
    | some f =>
      rw [hrn] at hdec
      simp only [wchar_to_unicode, Option.some.injEq] at hdec
      subst hdec
      refine ⟨by simp, ?_, ?_⟩
      · intro _
        exact ⟨(List.range fh.redirNameSize).map f, rfl, by simp⟩
      · intro h0
        omega
  · rw [if_neg hr] at hdec
    simp only [Option.some.injEq] at hdec
    subst hdec
    refine ⟨by simp, ?_, ?_⟩
    · intro hpos
      omega
    · intro _
      rfl

/-- Witness for `header_to_python_dir_redir`: the link-entry header
`fh_redir`, whose two-character redirection name is decoded. -/
theorem header_to_python_dir_redir_witness :
    ((eh_redir.is_dir = true) ↔ fh_redir.flags &&& RHDF_DIRECTORY ≠ 0) ∧
    (0 < fh_redir.redirNameSize →
      ∃ s, eh_redir.redir_name = some s ∧
        s.length = fh_redir.redirNameSize) ∧
    (fh_redir.redirNameSize = 0 → eh_redir.redir_name = none) :=
  header_to_python_dir_redir fh_redir eh_redir (by decide)

end Unrardll
